import Mathlib

/-!
Formal model of the LP-Query currency exchange function app.

The Python sources under function_app/ are shallowly embedded as Lean
definitions.  Numeric values (amounts and conversion rates) are modelled as
rationals.  The Python builtin round and the fixed-point string formats
round half to even; this is modelled by pyRound.  Python exceptions are
modelled by the PyErr type, and every fallible operation returns
Except PyErr.  Stateful Cosmos DB access is modelled by explicit state
passing over a StoreState; the external HTTP response and the per-item
delete outcomes are explicit parameters, since they are environment inputs.
-/

namespace LPQuery

/-- Python round half to even of a rational to the nearest integer, as the
builtin round does on exact values. -/
def pyRoundInt (q : ℚ) : ℤ :=
  if q - ⌊q⌋ < 1 / 2 then ⌊q⌋
  else if 1 / 2 < q - ⌊q⌋ then ⌊q⌋ + 1
  else if ⌊q⌋ % 2 = 0 then ⌊q⌋ else ⌊q⌋ + 1

/-- Python str.upper, mapping each character to upper case.  The currency
codes handled by the app are ASCII, for which this is exact. -/
def pyUpper (s : String) : String := ⟨s.data.map Char.toUpper⟩

/-- Python round(q, ndigits): round half to even at the given number of
decimal digits.  Also models the numeric content of the fixed-point string
format with ndigits digits. -/
def pyRound (ndigits : ℕ) (q : ℚ) : ℚ :=
  (pyRoundInt (q * 10 ^ ndigits) : ℚ) / 10 ^ ndigits

/-- Python exceptions raised by the embedded code.  Each ValueError message
of the source is a distinct constructor carrying the data interpolated into
the message string. -/
inductive PyErr where
  /-- ValueError at exchange_currency.py line 34: Amount must be non-negative. -/
  | valueErrorAmountNegative : PyErr
  /-- ValueError at exchange_currency.py lines 49 and 52: the named code is
  not supported; the message lists the supported currencies. -/
  | valueErrorUnsupported (code : String) (supported : List String) : PyErr
  /-- ValueError at exchange_currency.py lines 56 and 59: the named code was
  not found in current exchange rates from database. -/
  | valueErrorNotInRates (code : String) : PyErr
  /-- ValueError at cosmos_service.py line 137: failed to fetch valid
  currency rate data. -/
  | valueErrorFetchInvalid : PyErr
  /-- AttributeError: the named attribute is not defined on the object. -/
  | attributeError (name : String) : PyErr
  /-- ZeroDivisionError from float division by zero. -/
  | zeroDivisionError : PyErr
  /-- requests raise_for_status on a 4xx or 5xx response. -/
  | httpError (status : ℕ) : PyErr
  /-- requests RequestException: the HTTP request itself failed. -/
  | requestException : PyErr
  /-- Store read on an empty container (spec section 4.2 NotFound). -/
  | notFound : PyErr
  deriving Repr, DecidableEq

/-- Parsed JSON body returned by the external exchange-rate API, with the
fields read by the app.  Python dict get returns None for an absent key, so
each field is an Option; conversion_rates is an association list, which
keeps the key order of the JSON object as Python dicts do. -/
structure RateJson where
  result : Option String := none
  time_last_update_unix : Option ℤ := none
  time_last_update_utc : Option String := none
  time_next_update_unix : Option ℤ := none
  time_next_update_utc : Option String := none
  base_code : Option String := none
  conversion_rates : Option (List (String × ℚ)) := none
  deriving Repr, DecidableEq, Inhabited

/-- Dict lookup in the conversion_rates mapping: first binding of the key. -/
def ratesLookup (rates : List (String × ℚ)) (c : String) : Option ℚ :=
  match rates with
  | [] => none
  | (k, v) :: rest => if k = c then some v else ratesLookup rest c

/-- config.py SUPPORTED_CURRENCIES: the static supported-currency list. -/
def SUPPORTED_CURRENCIES : List String :=
  ["USD", "EUR", "GBP", "JPY", "CAD", "AUD", "CHF", "CNY", "INR", "KRW"]

/-- The result dict built by exchange_currency on success.  String fields
that only interpolate already-computed numbers are modelled by their numeric
content: conversion_summary_amount is the round(converted_amount, 2) inside
the conversion_summary string, and rate_info_forward / rate_info_inverse
are the six-digit fixed-point values inside the two rate_info strings. -/
structure ConvResult where
  from_currency : String
  to_currency : String
  original_amount : ℚ
  converted_amount : ℚ
  exchange_rate : ℚ
  base_currency : Option String
  last_update : Option String
  conversion_summary_amount : ℚ
  rate_info_forward : ℚ
  rate_info_inverse : ℚ
  deriving Repr, DecidableEq

/-- functions/exchange_currency.py exchange_currency.  The snapshot read at
line 37 (cosmos_service.get_current_rates_from_cosmos()) is passed in as
readRates, the result of that call; the rest follows the source line by
line: amount validation, read, uppercasing, the two supported-list checks,
the two database-presence checks, the rate arithmetic and the result dict.
Float division by zero raises ZeroDivisionError in Python, both at line 67
when from_rate is zero and at line 84 (1/exchange_rate) when exchange_rate
is zero. -/
def exchange_currency (readRates : Except PyErr RateJson)
    (from_currency to_currency : String) (amount : ℚ) :
    Except PyErr ConvResult :=
  if amount < 0 then .error .valueErrorAmountNegative
  else
    match readRates with
    | .error e => .error e
    | .ok rate_data =>
      let conversion_rates := rate_data.conversion_rates.getD []
      let fromC := pyUpper from_currency
      let toC := pyUpper to_currency
      if fromC ∉ SUPPORTED_CURRENCIES then
        .error (.valueErrorUnsupported fromC SUPPORTED_CURRENCIES)
      else if toC ∉ SUPPORTED_CURRENCIES then
        .error (.valueErrorUnsupported toC SUPPORTED_CURRENCIES)
      else
        match ratesLookup conversion_rates fromC,
              ratesLookup conversion_rates toC with
        | none, _ => .error (.valueErrorNotInRates fromC)
        | some _, none => .error (.valueErrorNotInRates toC)
        | some from_rate, some to_rate =>
          if from_rate = 0 then .error .zeroDivisionError
          else
            let exchange_rate := to_rate / from_rate
            let converted_amount := amount * exchange_rate
            if exchange_rate = 0 then .error .zeroDivisionError
            else
              .ok {
                from_currency := fromC
                to_currency := toC
                original_amount := amount
                converted_amount := pyRound 5 converted_amount
                exchange_rate := exchange_rate
                base_currency := rate_data.base_code
                last_update := rate_data.time_last_update_utc
                conversion_summary_amount := pyRound 2 converted_amount
                rate_info_forward := pyRound 6 exchange_rate
                rate_info_inverse := pyRound 6 (1 / exchange_rate) }

/-- The result dict built by get_supported_currencies. -/
structure CatalogResult where
  supported_currencies : List String
  available_in_database : List String
  supported_and_available : List String
  total_supported : ℕ
  total_available : ℕ
  base_currency : Option String
  last_update : Option String
  deriving Repr, DecidableEq

/-- functions/exchange_currency.py get_supported_currencies.  The snapshot
read at line 168 is passed in as readRates; on success the function builds
the catalog dict: the keys of conversion_rates, and the list comprehension
keeping each configured currency that is among those keys. -/
def get_supported_currencies (readRates : Except PyErr RateJson) :
    Except PyErr CatalogResult :=
  match readRates with
  | .error e => .error e
  | .ok rate_data =>
    let available_rates := (rate_data.conversion_rates.getD []).map (·.1)
    let available_supported :=
      SUPPORTED_CURRENCIES.filter (fun c => decide (c ∈ available_rates))
    .ok {
      supported_currencies := SUPPORTED_CURRENCIES
      available_in_database := available_rates
      supported_and_available := available_supported
      total_supported := SUPPORTED_CURRENCIES.length
      total_available := available_rates.length
      base_currency := rate_data.base_code
      last_update := rate_data.time_last_update_utc }

/-- A raw HTTP response from the external rate API: status code and parsed
JSON body. -/
structure HttpResponse where
  status_code : ℕ
  body : RateJson
  deriving Repr, DecidableEq

/-- requests Response.raise_for_status: raises HTTPError exactly when the
status code is 4xx or 5xx. -/
def raise_for_status (r : HttpResponse) : Except PyErr Unit :=
  if 400 ≤ r.status_code ∧ r.status_code < 600 then
    .error (.httpError r.status_code)
  else .ok ()

/-- services/currency_exchange_rate_service.py get_rates.  The outcome of
the HTTP GET is passed in as resp: an error when the request itself failed,
otherwise the response.  The source calls raise_for_status and then returns
the parsed JSON body unchanged; it performs no further check on the body. -/
def get_rates (resp : Except PyErr HttpResponse) : Except PyErr RateJson :=
  match resp with
  | .error e => .error e
  | .ok r =>
    match raise_for_status r with
    | .error e => .error e
    | .ok _ => .ok r.body

/-- A document stored in the Cosmos DB currency rates container, as built by
_prepare_item_for_cosmos.  Identifiers are modelled as naturals drawn from a
fresh-identifier supply (see StoreState.nextId). -/
structure StoredItem where
  id : ℕ
  time_last_update_unix : Option ℤ
  time_last_update_utc : Option String
  time_next_update_unix : Option ℤ
  time_next_update_utc : Option String
  base_code : Option String
  conversion_rates : List (String × ℚ)
  deriving Repr, DecidableEq

/-- State of the Cosmos DB container together with the identifier supply.
Python generates document ids with str(uuid.uuid4()); the model draws ids
from the counter nextId, which never repeats, reflecting that uuid4 yields
a fresh identifier on each call. -/
structure StoreState where
  items : List StoredItem
  nextId : ℕ
  deriving Repr, DecidableEq

/-- Outcome of one container.delete_item call inside _delete_all_items. -/
inductive DeleteOutcome where
  /-- The delete succeeded and the item is gone. -/
  | deleted : DeleteOutcome
  /-- CosmosResourceNotFoundError: the item was already gone; swallowed. -/
  | notFoundOnDelete : DeleteOutcome
  /-- Any other exception: logged as a warning and swallowed, so the item
  stays in the container. -/
  | otherError : DeleteOutcome
  deriving Repr, DecidableEq

/-- services/cosmos_service.py _delete_all_items: queries every item id and
deletes each one; a CosmosResourceNotFoundError or any other per-item error
is swallowed, so exactly the items whose delete raised a generic error
remain.  The outcome of each delete is given by the environment parameter
outcome, indexed by item id. -/
def _delete_all_items (outcome : ℕ → DeleteOutcome) (st : StoreState) :
    StoreState :=
  { st with items := st.items.filter (fun it => outcome it.id = .otherError) }

/-- services/cosmos_service.py _prepare_item_for_cosmos: extracts the
payload fields from the fetched JSON and assigns a freshly generated id. -/
def _prepare_item_for_cosmos (freshId : ℕ) (rate_data : RateJson) :
    StoredItem :=
  { id := freshId
    time_last_update_unix := rate_data.time_last_update_unix
    time_last_update_utc := rate_data.time_last_update_utc
    time_next_update_unix := rate_data.time_next_update_unix
    time_next_update_utc := rate_data.time_next_update_utc
    base_code := rate_data.base_code
    conversion_rates := rate_data.conversion_rates.getD [] }

/-- services/cosmos_service.py update_rates_in_cosmos.  fetchResult is the
result of the currency_service.get_rates() call at line 134.  The source
then requires the success indicator field to equal success (raising
ValueError otherwise), deletes all existing items, prepares the new item
under a fresh id, and upserts it.  Since the id is fresh, the upsert
inserts: the new item is appended to the container.  Returns the upserted
item together with the new store state. -/
def update_rates_in_cosmos (fetchResult : Except PyErr RateJson)
    (outcome : ℕ → DeleteOutcome) (st : StoreState) :
    Except PyErr (StoredItem × StoreState) :=
  match fetchResult with
  | .error e => .error e
  | .ok rate_data =>
    if rate_data.result ≠ some "success" then .error .valueErrorFetchInvalid
    else
      let cleared := _delete_all_items outcome st
      let cosmos_item := _prepare_item_for_cosmos st.nextId rate_data
      .ok (cosmos_item,
           { items := cleared.items ++ [cosmos_item], nextId := st.nextId + 1 })

/-- Modelled from the spec: readCurrent of section 4.2.  The repository has
no read operation in src (exchange_currency.py calls a method
get_current_rates_from_cosmos that CosmosService never defines), so the
read is modelled from the spec words: return the current snapshot, and fail
with NotFound when storage is empty.  Outside the singleton invariant, with
several documents present, the model returns the most recently written
one. -/
def readCurrent (st : StoreState) : Except PyErr StoredItem :=
  match st.items.getLast? with
  | some it => .ok it
  | none => .error .notFound

/-- The method names defined by class CosmosService in
services/cosmos_service.py (its class body contains exactly these def
statements). -/
def cosmosServiceMethodNames : List String :=
  ["__init__", "_initialize_database_and_container", "_delete_all_items",
   "_prepare_item_for_cosmos", "update_rates_in_cosmos"]

/-- The snapshot-read call cosmos_service.get_current_rates_from_cosmos()
at exchange_currency.py lines 37 and 168.  Python resolves the attribute
name on the CosmosService instance; the name is looked up among the defined
methods, and when absent the call raises AttributeError.  The then branch
is unreachable because no such method exists (see
cosmosServiceMethodNames). -/
def get_current_rates_from_cosmos : Except PyErr RateJson :=
  if "get_current_rates_from_cosmos" ∈ cosmosServiceMethodNames then
    .ok default
  else .error (.attributeError "get_current_rates_from_cosmos")

/-- exchange_currency as actually wired in the source: its snapshot read is
the attribute call on the global cosmos_service instance. -/
def exchange_currency_app (from_currency to_currency : String) (amount : ℚ) :
    Except PyErr ConvResult :=
  exchange_currency get_current_rates_from_cosmos from_currency to_currency
    amount

/-- get_supported_currencies as actually wired in the source: its snapshot
read is the attribute call on the global cosmos_service instance. -/
def get_supported_currencies_app : Except PyErr CatalogResult :=
  get_supported_currencies get_current_rates_from_cosmos

/-- A concrete snapshot used to exercise the model: base USD and three
conversion rates, in the order USD, EUR, JPY. -/
def rdW : RateJson :=
  { result := some "success"
    base_code := some "USD"
    time_last_update_utc := some "Fri, 10 Oct 2025 00:00:01 +0000"
    conversion_rates := some [("USD", 1), ("EUR", 2), ("JPY", 150)] }

/-- A snapshot holding the single rate USD = 1. -/
def rdId : RateJson := { conversion_rates := some [("USD", 1)] }

/-- A snapshot whose EUR rate is zero (malformed upstream data). -/
def rdZero : RateJson :=
  { conversion_rates := some [("USD", 1), ("EUR", 0)] }

/-- A fetched body carrying a failure indicator in its result field. -/
def rdFail : RateJson := { result := some "error" }

/-- A fetched body carrying the success indicator and no rates. -/
def rdOkEmpty : RateJson := { result := some "success" }

/-- The result dict of converting 10 usd to eur over rdW. -/
def resW : ConvResult :=
  { from_currency := "USD"
    to_currency := "EUR"
    original_amount := 10
    converted_amount := pyRound 5 (10 * (2 / 1))
    exchange_rate := 2 / 1
    base_currency := some "USD"
    last_update := some "Fri, 10 Oct 2025 00:00:01 +0000"
    conversion_summary_amount := pyRound 2 (10 * (2 / 1))
    rate_info_forward := pyRound 6 (2 / 1)
    rate_info_inverse := pyRound 6 (1 / (2 / 1)) }

/-- The catalog dict returned over the snapshot rdW. -/
def catW : CatalogResult :=
  { supported_currencies := SUPPORTED_CURRENCIES
    available_in_database := ["USD", "EUR", "JPY"]
    supported_and_available := ["USD", "EUR", "JPY"]
    total_supported := 10
    total_available := 3
    base_currency := some "USD"
    last_update := some "Fri, 10 Oct 2025 00:00:01 +0000" }

/-- A stored document with identifier 0 and empty payload. -/
def item0 : StoredItem :=
  { id := 0
    time_last_update_unix := none
    time_last_update_utc := none
    time_next_update_unix := none
    time_next_update_utc := none
    base_code := none
    conversion_rates := [] }

/-- A store holding the single document item0; 1 is the next fresh id. -/
def stOne : StoreState := { items := [item0], nextId := 1 }

/-- The document written by a refresh over stOne with payload rdOkEmpty. -/
def item1 : StoredItem :=
  { id := 1
    time_last_update_unix := none
    time_last_update_utc := none
    time_next_update_unix := none
    time_next_update_utc := none
    base_code := none
    conversion_rates := [] }

/-- The store after that refresh: the single document item1; 2 is next. -/
def stTwo : StoreState := { items := [item1], nextId := 2 }

/- ------------------------------------------------------------------ -/
/- Theorems.                                                           -/
/- ------------------------------------------------------------------ -/

/-- Every code in the static supported-currency list is already upper
case. -/
theorem mem_SUPPORTED_pyUpper :
    ∀ c ∈ SUPPORTED_CURRENCIES, pyUpper c = c := by decide

/-- Forward evaluation of exchange_currency on the success path: with a
non-negative amount, both uppercased codes supported and present in the
snapshot, and the two rates giving no zero division, the call returns the
result dict of exchange_currency.py lines 73 to 86. -/
theorem exchange_currency_ok_spec (rd : RateJson) (fc tc : String)
    (amount rf rt : ℚ)
    (hamt : 0 ≤ amount)
    (hfs : pyUpper fc ∈ SUPPORTED_CURRENCIES)
    (hts : pyUpper tc ∈ SUPPORTED_CURRENCIES)
    (hfr : ratesLookup (rd.conversion_rates.getD []) (pyUpper fc) = some rf)
    (htr : ratesLookup (rd.conversion_rates.getD []) (pyUpper tc) = some rt)
    (hrf : rf ≠ 0) (hrt : rt ≠ 0) :
    exchange_currency (.ok rd) fc tc amount =
      .ok { from_currency := pyUpper fc
            to_currency := pyUpper tc
            original_amount := amount
            converted_amount := pyRound 5 (amount * (rt / rf))
            exchange_rate := rt / rf
            base_currency := rd.base_code
            last_update := rd.time_last_update_utc
            conversion_summary_amount := pyRound 2 (amount * (rt / rf))
            rate_info_forward := pyRound 6 (rt / rf)
            rate_info_inverse := pyRound 6 (1 / (rt / rf)) } := by
  simp only [exchange_currency]
  rw [if_neg (not_lt.mpr hamt), if_neg (not_not_intro hfs),
      if_neg (not_not_intro hts), hfr, htr]
  dsimp only
  rw [if_neg hrf, if_neg (div_ne_zero hrt hrf)]

/-- C5: for every read result (the store may be empty or unreadable) and
every pair of currency codes, a strictly negative amount makes
exchange_currency fail with the ValueError stating the amount must be
non-negative; the check comes before the snapshot read and before any
currency-code validation. -/
theorem C5_negative_amount_validation (readRates : Except PyErr RateJson)
    (fc tc : String) (amount : ℚ) (h : amount < 0) :
    exchange_currency readRates fc tc amount
      = .error .valueErrorAmountNegative := by
  simp only [exchange_currency]
  rw [if_pos h]

/-- C5 witness: the amount -1 fails this way even when the store read
fails and both codes are invalid. -/
theorem C5_negative_amount_validation_witness :
    exchange_currency (.error .notFound) "XX" "YY" (-1)
      = .error .valueErrorAmountNegative :=
  C5_negative_amount_validation (.error .notFound) "XX" "YY" (-1)
    (neg_lt_zero.mpr one_pos)

/-- C6: exchange_currency uppercases both codes; a code outside the static
supported list fails with the ValueError naming that code and listing the
supported codes, the from code checked before the to code; only once both
codes pass the catalog check is presence in the snapshot checked, again
from before to, with the distinct not-found-in-database ValueError. -/
theorem C6_catalog_then_database_validation (rd : RateJson) (fc tc : String)
    (amount : ℚ) (hamt : 0 ≤ amount) :
    (pyUpper fc ∉ SUPPORTED_CURRENCIES →
      exchange_currency (.ok rd) fc tc amount
        = .error (.valueErrorUnsupported (pyUpper fc) SUPPORTED_CURRENCIES)) ∧
    (pyUpper fc ∈ SUPPORTED_CURRENCIES → pyUpper tc ∉ SUPPORTED_CURRENCIES →
      exchange_currency (.ok rd) fc tc amount
        = .error (.valueErrorUnsupported (pyUpper tc) SUPPORTED_CURRENCIES)) ∧
    (pyUpper fc ∈ SUPPORTED_CURRENCIES → pyUpper tc ∈ SUPPORTED_CURRENCIES →
      ratesLookup (rd.conversion_rates.getD []) (pyUpper fc) = none →
      exchange_currency (.ok rd) fc tc amount
        = .error (.valueErrorNotInRates (pyUpper fc))) ∧
    (∀ rf, pyUpper fc ∈ SUPPORTED_CURRENCIES →
      pyUpper tc ∈ SUPPORTED_CURRENCIES →
      ratesLookup (rd.conversion_rates.getD []) (pyUpper fc) = some rf →
      ratesLookup (rd.conversion_rates.getD []) (pyUpper tc) = none →
      exchange_currency (.ok rd) fc tc amount
        = .error (.valueErrorNotInRates (pyUpper tc))) ∧
    (∀ c1 c2 sup,
      PyErr.valueErrorUnsupported c1 sup ≠ PyErr.valueErrorNotInRates c2) := by
  refine ⟨fun h1 => ?_, fun h1 h2 => ?_, fun h1 h2 h3 => ?_,
    fun rf h1 h2 h3 h4 => ?_, fun c1 c2 sup h => by cases h⟩ <;>
    simp only [exchange_currency] <;> rw [if_neg (not_lt.mpr hamt)]
  · rw [if_pos h1]
  · rw [if_neg (not_not_intro h1), if_pos h2]
  · rw [if_neg (not_not_intro h1), if_neg (not_not_intro h2), h3]
  · rw [if_neg (not_not_intro h1), if_neg (not_not_intro h2), h3, h4]

/-- C6 witness: ZZ is not in the static list, so converting from zz fails
with the unsupported-currency error naming ZZ, even though the snapshot
read succeeded. -/
theorem C6_catalog_then_database_validation_witness :
    exchange_currency (.ok rdW) "zz" "usd" 1
      = .error (.valueErrorUnsupported (pyUpper "zz") SUPPORTED_CURRENCIES) :=
  (C6_catalog_then_database_validation rdW "zz" "usd" 1 (by decide)).1
    (by decide)

/-- C7: on every successful call, the structured exchange_rate is the
unrounded cross rate rt / rf, converted_amount is amount times the cross
rate rounded to 5 decimal places, the conversion summary rounds the
converted amount to 2 decimal places, and the two rate-info strings carry
the rates rounded to 6 decimal places. -/
theorem C7_result_fields_rounding (rd : RateJson) (fc tc : String)
    (amount rf rt : ℚ) (hamt : 0 ≤ amount)
    (hfs : pyUpper fc ∈ SUPPORTED_CURRENCIES)
    (hts : pyUpper tc ∈ SUPPORTED_CURRENCIES)
    (hfr : ratesLookup (rd.conversion_rates.getD []) (pyUpper fc) = some rf)
    (htr : ratesLookup (rd.conversion_rates.getD []) (pyUpper tc) = some rt)
    (hrf : rf ≠ 0) (hrt : rt ≠ 0) :
    ∀ res, exchange_currency (.ok rd) fc tc amount = .ok res →
      res.exchange_rate = rt / rf ∧
      res.converted_amount = pyRound 5 (amount * (rt / rf)) ∧
      res.conversion_summary_amount = pyRound 2 (amount * (rt / rf)) ∧
      res.rate_info_forward = pyRound 6 (rt / rf) ∧
      res.rate_info_inverse = pyRound 6 (1 / (rt / rf)) ∧
      res.original_amount = amount := by
  intro res hres
  rw [exchange_currency_ok_spec rd fc tc amount rf rt hamt hfs hts hfr htr
      hrf hrt] at hres
  simp only [Except.ok.injEq] at hres
  subst hres
  exact ⟨rfl, rfl, rfl, rfl, rfl, rfl⟩

/-- C7 witness: converting 10 usd to eur over rdW yields the result resW,
whose fields satisfy the rounding contract at rf = 1, rt = 2. -/
theorem C7_result_fields_rounding_witness :
    resW.exchange_rate = 2 / 1 ∧
    resW.converted_amount = pyRound 5 (10 * (2 / 1)) ∧
    resW.conversion_summary_amount = pyRound 2 (10 * (2 / 1)) ∧
    resW.rate_info_forward = pyRound 6 (2 / 1) ∧
    resW.rate_info_inverse = pyRound 6 (1 / (2 / 1)) ∧
    resW.original_amount = 10 :=
  C7_result_fields_rounding rdW "usd" "eur" 10 1 2 (by decide) (by decide)
    (by decide) (by decide) (by decide) one_ne_zero two_ne_zero resW
    (exchange_currency_ok_spec rdW "usd" "eur" 10 1 2 (by decide) (by decide)
      (by decide) (by decide) (by decide) one_ne_zero two_ne_zero)

/-- C10: with the from rate nonzero and the to rate zero, exchange_currency
raises ZeroDivisionError instead of returning a result, since building the
inverse rate-info string divides one by the zero cross rate. -/
theorem C10_zero_target_rate_division_error (rd : RateJson)
    (fc tc : String) (amount rf : ℚ) (hamt : 0 ≤ amount)
    (hfs : pyUpper fc ∈ SUPPORTED_CURRENCIES)
    (hts : pyUpper tc ∈ SUPPORTED_CURRENCIES)
    (hfr : ratesLookup (rd.conversion_rates.getD []) (pyUpper fc) = some rf)
    (htr : ratesLookup (rd.conversion_rates.getD []) (pyUpper tc) = some 0)
    (hrf : rf ≠ 0) :
    exchange_currency (.ok rd) fc tc amount = .error .zeroDivisionError := by
  simp only [exchange_currency]
  rw [if_neg (not_lt.mpr hamt), if_neg (not_not_intro hfs),
      if_neg (not_not_intro hts), hfr, htr]
  dsimp only
  rw [if_neg hrf, if_pos (zero_div rf)]

/-- C1: CosmosService defines no get_current_rates_from_cosmos method, so
for every pair of codes and every non-negative amount the snapshot read
raises AttributeError: exchange_currency and get_supported_currencies as
wired in the app never return a conversion or catalog result, and the
currency-code validation errors of the catalog and database checks are
unreachable. -/
theorem C1_missing_read_method_attribute_error (fc tc : String)
    (amount : ℚ) (hamt : 0 ≤ amount) :
    "get_current_rates_from_cosmos" ∉ cosmosServiceMethodNames ∧
    exchange_currency_app fc tc amount
      = .error (.attributeError "get_current_rates_from_cosmos") ∧
    get_supported_currencies_app
      = .error (.attributeError "get_current_rates_from_cosmos") ∧
    (∀ res, exchange_currency_app fc tc amount ≠ .ok res) ∧
    (∀ cat, get_supported_currencies_app ≠ .ok cat) ∧
    (∀ c sup, exchange_currency_app fc tc amount
      ≠ .error (.valueErrorUnsupported c sup)) ∧
    (∀ c, exchange_currency_app fc tc amount
      ≠ .error (.valueErrorNotInRates c)) := by
  have hread : get_current_rates_from_cosmos
      = .error (.attributeError "get_current_rates_from_cosmos") := by
    unfold get_current_rates_from_cosmos
    rw [if_neg (by decide)]
  have hex : exchange_currency_app fc tc amount
      = .error (.attributeError "get_current_rates_from_cosmos") := by
    unfold exchange_currency_app
    rw [hread]
    simp only [exchange_currency]
    rw [if_neg (not_lt.mpr hamt)]
  have hcat : get_supported_currencies_app
      = .error (.attributeError "get_current_rates_from_cosmos") := by
    unfold get_supported_currencies_app
    rw [hread]
    rfl
  refine ⟨by decide, hex, hcat, ?_, ?_, ?_, ?_⟩
  · intro res h
    rw [hex] at h
    exact Except.noConfusion h
  · intro cat h
    rw [hcat] at h
    exact Except.noConfusion h
  · intro c sup h
    rw [hex] at h
    simp only [Except.error.injEq] at h
    exact PyErr.noConfusion h
  · intro c h
    rw [hex] at h
    simp only [Except.error.injEq] at h
    exact PyErr.noConfusion h

/-- C1 witness: the wired-up conversion of 1 USD to EUR fails with the
AttributeError for the missing read method. -/
theorem C1_missing_read_method_attribute_error_witness :
    exchange_currency_app "USD" "EUR" 1
      = .error (.attributeError "get_current_rates_from_cosmos") :=
  (C1_missing_read_method_attribute_error "USD" "EUR" 1 (by decide)).2.1

/-- C2 counterexample: a 200 response whose body carries the result field
error is returned as a snapshot by get_rates, so get_rates does not fail
when the success indicator differs from success. -/
theorem C2_fetch_ignores_success_indicator_counterexample :
    get_rates (.ok ⟨200, rdFail⟩) = .ok rdFail ∧
    rdFail.result ≠ some "success" := by
  exact ⟨rfl, by decide⟩

/-- C2 amended: get_rates returns the parsed body iff the HTTP request
succeeds and raise_for_status passes (status outside 4xx and 5xx), with
no check of the body; the success-indicator comparison against success is
performed by the caller update_rates_in_cosmos, which fails with
ValueError when the indicator is absent or different. -/
theorem C2_fetch_contract (resp : Except PyErr HttpResponse) :
    (∀ r, resp = .ok r → ¬(400 ≤ r.status_code ∧ r.status_code < 600) →
      get_rates resp = .ok r.body) ∧
    (∀ r, resp = .ok r → 400 ≤ r.status_code → r.status_code < 600 →
      get_rates resp = .error (.httpError r.status_code)) ∧
    (∀ e, resp = .error e → get_rates resp = .error e) ∧
    (∀ rd outcome st, rd.result ≠ some "success" →
      update_rates_in_cosmos (.ok rd) outcome st
        = .error .valueErrorFetchInvalid) := by
  refine ⟨?_, ?_, ?_, ?_⟩
  · rintro r rfl hnot
    simp only [get_rates, raise_for_status]
    rw [if_neg hnot]
  · rintro r rfl h1 h2
    simp only [get_rates, raise_for_status]
    rw [if_pos ⟨h1, h2⟩]
  · rintro e rfl
    rfl
  · intro rd outcome st h
    simp only [update_rates_in_cosmos]
    rw [if_pos h]

/-- C2 witness: a 200 response is returned as fetched, and a body whose
indicator is error makes the caller update_rates_in_cosmos fail with
ValueError over the store stOne. -/
theorem C2_fetch_contract_witness :
    get_rates (.ok ⟨200, rdOkEmpty⟩) = .ok rdOkEmpty ∧
    update_rates_in_cosmos (.ok rdFail) (fun _ => .deleted) stOne
      = .error .valueErrorFetchInvalid :=
  ⟨(C2_fetch_contract (.ok ⟨200, rdOkEmpty⟩)).1 ⟨200, rdOkEmpty⟩ rfl
      (by decide),
   (C2_fetch_contract (.ok ⟨200, rdOkEmpty⟩)).2.2.2 rdFail
      (fun _ => .deleted) stOne (by decide)⟩

/-- C3 counterexample: over the store stOne whose only document cannot be
deleted (its delete raises a generic error, which is swallowed), a
completed update_rates_in_cosmos leaves two documents in storage, so the
at-most-one invariant does not hold across swallowed delete failures. -/
theorem C3_swallowed_delete_failure_counterexample :
    (update_rates_in_cosmos (.ok rdOkEmpty) (fun _ => .otherError)
        stOne).map (fun p => p.2.items.length) = .ok 2 ∧ ¬(2 ≤ 1) :=
  ⟨rfl, by decide⟩

/-- C3 amended: after a completed update_rates_in_cosmos in which the
delete of every pre-existing document succeeds or finds it already gone,
storage holds exactly the one new document; as the counterexample shows,
a swallowed generic delete error instead leaves the undeleted documents
beside the new one, so the singleton invariant holds only for clean
delete runs. -/
theorem C3_singleton_after_clean_replace (rd : RateJson)
    (outcome : ℕ → DeleteOutcome) (st : StoreState)
    (item : StoredItem) (st2 : StoreState)
    (hclean : ∀ it ∈ st.items, outcome it.id ≠ .otherError)
    (hupd : update_rates_in_cosmos (.ok rd) outcome st = .ok (item, st2)) :
    st2.items = [item] := by
  simp only [update_rates_in_cosmos] at hupd
  by_cases hres : rd.result ≠ some "success"
  · rw [if_pos hres] at hupd
    exact Except.noConfusion hupd
  · rw [if_neg hres] at hupd
    simp only [Except.ok.injEq, Prod.mk.injEq] at hupd
    obtain ⟨hitem, hst⟩ := hupd
    subst hst
    subst hitem
    simp only [_delete_all_items]
    have hnil : st.items.filter
        (fun it => decide (outcome it.id = DeleteOutcome.otherError)) = [] := by
      rw [List.filter_eq_nil_iff]
      intro a ha
      simpa using hclean a ha
    rw [hnil]
    rfl

/-- C3 witness: a clean refresh over stOne leaves exactly the document
item1 in the store stTwo. -/
theorem C3_singleton_after_clean_replace_witness :
    stTwo.items = [item1] :=
  C3_singleton_after_clean_replace rdOkEmpty (fun _ => .deleted) stOne
    item1 stTwo (by decide) (by rfl)

/-- C4: after a successful update_rates_in_cosmos with a clean delete run,
the spec-modelled readCurrent returns the just-written snapshot: its
conversion_rates equal those of the input payload, and its id, drawn from
the fresh-identifier supply, differs from every previously assigned id;
the supply bound extends to the new id, so freshness is preserved across
runs. -/
theorem C4_replace_then_read_fresh_id (rd : RateJson)
    (outcome : ℕ → DeleteOutcome) (st : StoreState) (prevIds : List ℕ)
    (item : StoredItem) (st2 : StoreState)
    (hclean : ∀ it ∈ st.items, outcome it.id ≠ .otherError)
    (hprev : ∀ i ∈ prevIds, i < st.nextId)
    (hupd : update_rates_in_cosmos (.ok rd) outcome st = .ok (item, st2)) :
    readCurrent st2 = .ok item ∧
    item.conversion_rates = rd.conversion_rates.getD [] ∧
    item.id ∉ prevIds ∧
    (∀ i ∈ prevIds ++ [item.id], i < st2.nextId) := by
  simp only [update_rates_in_cosmos] at hupd
  by_cases hres : rd.result ≠ some "success"
  · rw [if_pos hres] at hupd
    exact Except.noConfusion hupd
  · rw [if_neg hres] at hupd
    simp only [Except.ok.injEq, Prod.mk.injEq] at hupd
    obtain ⟨hitem, hst⟩ := hupd
    subst hst
    subst hitem
    have hnil : st.items.filter
        (fun it => decide (outcome it.id = DeleteOutcome.otherError)) = [] := by
      rw [List.filter_eq_nil_iff]
      intro a ha
      simpa using hclean a ha
    refine ⟨?_, rfl, ?_, ?_⟩
    · simp only [readCurrent, _delete_all_items, hnil]
      rfl
    · intro hmem
      exact lt_irrefl _ (hprev _ hmem)
    · intro i hi
      rcases List.mem_append.mp hi with hi | hi
      · exact Nat.lt_succ_of_lt (hprev i hi)
      · rcases List.mem_singleton.mp hi with rfl
        exact Nat.lt_succ_self _

/-- C4 witness: a clean refresh over stOne with previously assigned id 0
is read back as item1, whose rates equal the payload rates and whose id 1
is fresh. -/
theorem C4_replace_then_read_fresh_id_witness :
    readCurrent stTwo = .ok item1 ∧
    item1.conversion_rates = rdOkEmpty.conversion_rates.getD [] ∧
    item1.id ∉ [0] ∧
    (∀ i ∈ [0] ++ [item1.id], i < stTwo.nextId) :=
  C4_replace_then_read_fresh_id rdOkEmpty (fun _ => .deleted) stOne [0]
    item1 stTwo (by decide) (by decide) (by rfl)

/-- C8 counterexample: over rdId, the identity conversion of the amount
1/1000000 returns converted_amount 0 rather than the amount itself,
because the canonical converted-amount field is rounded to 5 decimal
places; so convert(code, code, amount) does not equal amount exactly for
every supported and available code and non-negative amount. -/
theorem C8_identity_conversion_counterexample :
    (exchange_currency (.ok rdId) "USD" "USD" (1 / 1000000)).map
        ConvResult.converted_amount ≠ .ok (1 / 1000000) := by
  rw [exchange_currency_ok_spec rdId "USD" "USD" (1 / 1000000) 1 1
      (by norm_num) (by decide) (by decide) (by decide) (by decide)
      one_ne_zero one_ne_zero]
  simp only [Except.map, Except.ok.injEq]
  norm_num [pyRound, pyRoundInt]

/-- C8 amended: for every code in both the static supported list and the
current conversionRates with nonzero rate, and every non-negative amount,
the identity conversion returns converted_amount equal to amount rounded
to 5 decimal places (so it equals amount exactly whenever amount has at
most 5 decimal places). -/
theorem C8_identity_conversion_rounded (rd : RateJson) (code : String)
    (amount r : ℚ) (hsup : code ∈ SUPPORTED_CURRENCIES)
    (hr : ratesLookup (rd.conversion_rates.getD []) code = some r)
    (hrne : r ≠ 0) (hamt : 0 ≤ amount) :
    (exchange_currency (.ok rd) code code amount).map
        ConvResult.converted_amount = .ok (pyRound 5 amount) := by
  have hup : pyUpper code = code := mem_SUPPORTED_pyUpper code hsup
  rw [exchange_currency_ok_spec rd code code amount r r hamt
      (by rw [hup]; exact hsup) (by rw [hup]; exact hsup)
      (by rw [hup]; exact hr) (by rw [hup]; exact hr) hrne hrne]
  simp only [Except.map, Except.ok.injEq]
  rw [div_self hrne, mul_one]

/-- C8 witness: the identity conversion of the integral amount 10 over
rdId returns 10 rounded to 5 decimal places. -/
theorem C8_identity_conversion_rounded_witness :
    (exchange_currency (.ok rdId) "USD" "USD" 10).map
        ConvResult.converted_amount = .ok (pyRound 5 10) :=
  C8_identity_conversion_rounded rdId "USD" 10 1 (by decide) (by decide)
    one_ne_zero (by decide)

/-- C9: the supported_and_available list of get_supported_currencies is
the intersection of the static supported list with the snapshot keys,
preserving the order of the supported list; it is a subset of both the
supported list and the available-in-database list. -/
theorem C9_supported_and_available_intersection (rd : RateJson)
    (cat : CatalogResult)
    (h : get_supported_currencies (.ok rd) = .ok cat) :
    cat.supported_and_available
      = SUPPORTED_CURRENCIES.filter
          (fun c => decide (c ∈ cat.available_in_database)) ∧
    cat.supported_currencies = SUPPORTED_CURRENCIES ∧
    cat.available_in_database
      = (rd.conversion_rates.getD []).map Prod.fst ∧
    (∀ c ∈ cat.supported_and_available,
      c ∈ cat.supported_currencies ∧ c ∈ cat.available_in_database) := by
  simp only [get_supported_currencies, Except.ok.injEq] at h
  subst h
  refine ⟨rfl, rfl, rfl, fun c hc => ?_⟩
  have hm := List.mem_filter.mp hc
  exact ⟨hm.1, of_decide_eq_true hm.2⟩

/-- C9 witness: over rdW the intersection is USD, EUR, JPY, in the order
of the supported list, and it is a subset of both sides. -/
theorem C9_supported_and_available_intersection_witness :
    catW.supported_and_available
      = SUPPORTED_CURRENCIES.filter
          (fun c => decide (c ∈ catW.available_in_database)) ∧
    catW.supported_currencies = SUPPORTED_CURRENCIES ∧
    catW.available_in_database
      = (rdW.conversion_rates.getD []).map Prod.fst ∧
    (∀ c ∈ catW.supported_and_available,
      c ∈ catW.supported_currencies ∧ c ∈ catW.available_in_database) :=
  C9_supported_and_available_intersection rdW catW (by rfl)

/-- C10 witness: over rdZero the EUR rate is 0, so converting 1 usd to eur
fails with ZeroDivisionError. -/
theorem C10_zero_target_rate_division_error_witness :
    exchange_currency (.ok rdZero) "usd" "eur" 1
      = .error .zeroDivisionError :=
  C10_zero_target_rate_division_error rdZero "usd" "eur" 1 1 (by decide)
    (by decide) (by decide) (by decide) (by decide) one_ne_zero

end LPQuery
